import Mathlib

/-!
Verification of the street-network perturbation / efficiency analysis
pipeline (notebook `workshop2.ipynb`): the efficiency-ratio calculator
`calc_efficiency`, the random node-removal perturbation, the batch
shortest-path filter, and the two comparative metrics.

The graph is modelled as a directed multigraph with spatially located
nodes (longitude `x`, latitude `y`, rationals) and keyed edges carrying a
real `length` attribute, mirroring the OSMnx `MultiDiGraph`.
-/

/-- A graph node: identifier plus longitude `x` and latitude `y`
(degrees, modelled exactly as rationals). -/
structure GNode where
  id : Nat
  x : ℚ
  y : ℚ
deriving Repr, DecidableEq

/-- A directed edge `u → v` with a parallel-edge key and a `length`
attribute in meters. -/
structure GEdge where
  u : Nat
  v : Nat
  key : Nat
  length : ℝ

/-- A directed multigraph: node list plus edge list. -/
structure Graph where
  nodes : List GNode
  edges : List GEdge

/-- `G.copy()`: a structural copy of the graph (same nodes and edges,
independent value). -/
def copyGraph (G : Graph) : Graph :=
  { nodes := G.nodes, edges := G.edges }

/-- The list of node identifiers of the graph (`list(G.nodes)`). -/
def nodeIds (G : Graph) : List Nat :=
  G.nodes.map (fun nd => nd.id)

/-- `G.remove_nodes_from(S)` (networkx): drop every node whose id is in
`S` and every edge incident to a dropped node; ids absent from the graph
are silently ignored. -/
def removeNodesFrom (G : Graph) (S : List Nat) : Graph :=
  { nodes := G.nodes.filter (fun nd => nd.id ∉ S)
    edges := G.edges.filter (fun e => e.u ∉ S ∧ e.v ∉ S) }

/-- `G.nodes[i]`: look up the node record with identifier `i`
(`none` models a `KeyError`). -/
def findNode (G : Graph) (i : Nat) : Option GNode :=
  G.nodes.find? (fun nd => nd.id == i)

/-- Earth's mean radius in meters, OSMnx's default for
`ox.distance.great_circle`. -/
noncomputable def earthRadius : ℝ := 6371009

/-- `np.deg2rad`: degrees to radians. -/
noncomputable def deg2rad (x : ℝ) : ℝ := x * (Real.pi / 180)

/-- Modelled from the spec: `ox.distance.great_circle` (external
library) — the haversine great-circle distance on a sphere of Earth's
mean radius, with the intermediate haversine value clamped to at
most 1. -/
noncomputable def greatCircle (lat1 lon1 lat2 lon2 : ℝ) : ℝ :=
  let y1 := deg2rad lat1
  let y2 := deg2rad lat2
  let dy := y2 - y1
  let x1 := deg2rad lon1
  let x2 := deg2rad lon2
  let dx := x2 - x1
  let h := Real.sin (dy / 2) ^ 2 + Real.cos y1 * Real.cos y2 * Real.sin (dx / 2) ^ 2
  2 * Real.arcsin (Real.sqrt (min h 1)) * earthRadius

/-- Minimum of a list of reals as an `Option` (`none` on the empty
list): models `min(G[u][v].items(), key=weight)` over parallel edges. -/
noncomputable def pickMin : List ℝ → Option ℝ
  | [] => none
  | [l] => some l
  | l :: l' :: ls =>
    match pickMin (l' :: ls) with
    | some m => some (if l ≤ m then l else m)
    | none => some l

/-- The `length` attribute of the edge traversed from `u` to `v`: the
minimum-length parallel edge, as selected by `ox.routing.route_to_gdf`;
`none` models the `KeyError` when no such edge exists. -/
noncomputable def edgeLenMin (G : Graph) (u v : Nat) : Option ℝ :=
  pickMin ((G.edges.filter (fun e => e.u == u && e.v == v)).map (fun e => e.length))

/-- The consecutive node pairs of a route: `zip(route[:-1], route[1:])`. -/
def consecPairs (route : List Nat) : List (Nat × Nat) :=
  route.zip route.tail

/-- The lengths of the edges traversed along the route, in order
(`ox.routing.route_to_gdf(G, route)["length"]`); `none` models the
exception raised when some consecutive pair has no edge. -/
noncomputable def routeLengths (G : Graph) (route : List Nat) : Option (List ℝ) :=
  (consecPairs route).mapM (fun p => edgeLenMin G p.1 p.2)

/-- `trip_distance = sum(ox.routing.route_to_gdf(G, route)["length"])`. -/
noncomputable def tripDistance (G : Graph) (route : List Nat) : Option ℝ :=
  (routeLengths G route).map (fun ls => ls.sum)

/-- `calc_efficiency(G, route)` from the notebook: the great-circle
distance between the first and last route nodes divided by the summed
edge lengths.  `none` models the exception raised when the route has
fewer than two nodes (`route_to_gdf` rejects it), when a consecutive
pair has no edge, or when an endpoint node is absent. -/
noncomputable def calc_efficiency (G : Graph) (route : List Nat) : Option ℝ :=
  if route.length < 2 then none
  else
    match tripDistance G route, route.head?.bind (findNode G), route.getLast?.bind (findNode G) with
    | some td, some a, some b =>
      some (greatCircle (a.y : ℝ) (a.x : ℝ) (b.y : ℝ) (b.x : ℝ) / td)
    | _, _, _ => none

/-- Modelled from the spec: "sum the length attribute of each edge
traversed along the route" as a direct recursion over consecutive
pairs — the spec-side reading of the trip distance. -/
noncomputable def sumRouteLengths (G : Graph) : List Nat → Option ℝ
  | a :: b :: rest =>
    match edgeLenMin G a b, sumRouteLengths G (b :: rest) with
    | some l, some s => some (l + s)
    | _, _ => none
  | _ => some 0

/-- Python `int()` applied to a rational: truncation toward zero. -/
def pyInt (q : ℚ) : ℤ :=
  if 0 ≤ q then ⌊q⌋ else -⌊-q⌋

/-- `n = int(len(G.nodes) * frac)`: the requested sample size. -/
def nSample (G : Graph) (frac : ℚ) : ℤ :=
  pyInt (frac * (G.nodes.length : ℚ))

/-- The perturbed graph built from a drawn node sample `S`:
`G_per = G.copy(); G_per.remove_nodes_from(S)`. -/
def G_per (G : Graph) (S : List Nat) : Graph :=
  removeNodesFrom (copyGraph G) S

/-- The perturbation run with its sampling validity check:
`pd.Series(G.nodes).sample(n)` raises when the requested size `n` is
negative or exceeds the population, and otherwise the perturbed copy is
built from the drawn sample `S`.  `none` models the pandas error. -/
def perturbChecked (G : Graph) (frac : ℚ) (S : List Nat) : Option Graph :=
  if 0 ≤ nSample G frac ∧ nSample G frac ≤ (G.nodes.length : ℤ) then
    some (G_per G S)
  else none

/-- Modelled from the spec: a deterministic seeded pseudo-random step
(the numpy global generator seeded by `np.random.seed` is external to
the repository). -/
def lcgStep (s : Nat) : Nat :=
  (1103515245 * s + 12345) % 2147483648

/-- Modelled from the spec: "draw n distinct node identifiers uniformly
without replacement from the full node set" with a deterministic seed —
each round removes the seed-selected element from the remaining pool. -/
def sampleWithoutReplacement : Nat → List Nat → Nat → List Nat
  | _, _, 0 => []
  | seed, pool, Nat.succ n =>
    match pool[seed % pool.length]? with
    | none => []
    | some a => a :: sampleWithoutReplacement (lcgStep seed) (pool.eraseIdx (seed % pool.length)) n

/-- The sample of node ids removed by a seeded perturbation run. -/
def removedSample (G : Graph) (frac : ℚ) (seed : Nat) : List Nat :=
  sampleWithoutReplacement seed (nodeIds G) (nSample G frac).toNat

/-- A seeded perturbation run end to end. -/
def perturbSeeded (G : Graph) (frac : ℚ) (seed : Nat) : Graph :=
  G_per G (removedSample G frac seed)

/-- The two graph variables of the notebook session. -/
inductive GName where
  | base : GName
  | per : GName
deriving DecidableEq

/-- The store of named graph values of a notebook session. -/
def GStore : Type := GName → Graph

/-- Rebind one name of the store to a new graph value. -/
def setG (s : GStore) (n : GName) (g : Graph) : GStore :=
  fun m => if m = n then g else s m

/-- `G_per = G.copy()`: bind the copy under the name `per`. -/
def copyStep (s : GStore) : GStore :=
  setG s GName.per (copyGraph (s GName.base))

/-- `G_per.remove_nodes_from(S)`: in-place mutation of the graph bound
to `per`. -/
def removeStep (s : GStore) (S : List Nat) : GStore :=
  setG s GName.per (removeNodesFrom (s GName.per) S)

/-- The notebook's perturbation program: copy, then remove in place. -/
def perturbProg (s : GStore) (S : List Nat) : GStore :=
  removeStep (copyStep s) S

/-- Batch trip simulation: one routing-oracle call per OD pair
(`ox.routing.shortest_path(G, orig, dest)` for each pair, `None` when
unreachable). -/
def simulateTrips (oracle : Nat → Nat → Option (List Nat)) (pairs : List (Nat × Nat)) :
    List (Option (List Nat)) :=
  pairs.map (fun p => oracle p.1 p.2)

/-- `[path for path in paths if path is not None and len(path) > 1]`. -/
def filterSolved (ps : List (Option (List Nat))) : List (List Nat) :=
  ps.filterMap (fun op => op.bind (fun p => if 1 < p.length then some p else none))

/-- `1 - (len(paths_per) / len(paths))`: the fraction of formerly
solvable trips now unsolvable; `none` models the `ZeroDivisionError`
raised when no trip was solved before. -/
def fracUnsolvable (pathsPer paths : List (List Nat)) : Option ℚ :=
  if paths.length = 0 then none
  else some (1 - (pathsPer.length : ℚ) / (paths.length : ℚ))

/-- `pd.Series.mean()`: `none` models the NaN produced on an empty
series. -/
noncomputable def seriesMean (xs : List ℝ) : Option ℝ :=
  if xs.length = 0 then none
  else some (xs.sum / (xs.length : ℝ))

/-- `1 - (trip_efficiency_per.mean() / trip_efficiency.mean())`: the
relative efficiency degradation; `none` models the NaN result when
either mean is taken over an empty series. -/
noncomputable def effDegradation (effPer eff : List ℝ) : Option ℝ :=
  match seriesMean effPer, seriesMean eff with
  | some ma, some mb => some (1 - ma / mb)
  | _, _ => none

/-- Squared Euclidean distance between two coordinate pairs. -/
def sqDist (x1 y1 x2 y2 : ℚ) : ℚ :=
  (x1 - x2) ^ 2 + (y1 - y2) ^ 2

/-- Helper for `nearestNode`: the id and squared distance of the
closest node in the list, earlier nodes winning ties. -/
def nearestAux (x y : ℚ) : List GNode → Option (Nat × ℚ)
  | [] => none
  | nd :: rest =>
    match nearestAux x y rest with
    | none => some (nd.id, sqDist nd.x nd.y x y)
    | some (j, d) =>
      if sqDist nd.x nd.y x y ≤ d then some (nd.id, sqDist nd.x nd.y x y)
      else some (j, d)

/-- Modelled from the spec: `ox.distance.nearest_nodes` (external
nearest-node lookup) — the graph node minimizing the distance to the
query coordinate, over the graph's current node set. -/
def nearestNode (G : Graph) (x y : ℚ) : Option Nat :=
  (nearestAux x y G.nodes).map (fun r => r.1)

/-- A two-node graph with one 100 m edge, used as a concrete valid
route instance. -/
def Gwit : Graph :=
  ⟨[⟨1, 0, 0⟩, ⟨2, 1, 0⟩], [⟨1, 2, 0, 100⟩]⟩

/-- A two-node graph with a 100 m edge in each direction: the route
`[1, 2, 1]` is a cycle of positive trip distance whose endpoints
coincide. -/
def Gcyc : Graph :=
  ⟨[⟨1, 0, 0⟩, ⟨2, 1, 0⟩], [⟨1, 2, 0, 100⟩, ⟨2, 1, 0, 100⟩]⟩

/-- Three equatorial nodes at longitudes 0°, 90°, 180°, joined by two
edges whose lengths are exact quarter-circumferences: the two-segment
route `[1, 2, 3]` has trip distance equal to the endpoint great-circle
distance. -/
noncomputable def Gstraight : Graph :=
  ⟨[⟨1, 0, 0⟩, ⟨2, 90, 0⟩, ⟨3, 180, 0⟩],
   [⟨1, 2, 0, earthRadius * (Real.pi / 2)⟩, ⟨2, 3, 0, earthRadius * (Real.pi / 2)⟩]⟩

/-- A two-node graph whose single edge has length 0: the route `[1, 2]`
has trip distance 0. -/
def Gzero : Graph :=
  ⟨[⟨1, 0, 0⟩, ⟨2, 1, 0⟩], [⟨1, 2, 0, 0⟩]⟩

/-- A ten-node, edge-free graph used for sample-size edge cases. -/
def Gten : Graph :=
  ⟨[⟨1, 0, 0⟩, ⟨2, 1, 0⟩, ⟨3, 2, 0⟩, ⟨4, 3, 0⟩, ⟨5, 4, 0⟩,
    ⟨6, 5, 0⟩, ⟨7, 6, 0⟩, ⟨8, 7, 0⟩, ⟨9, 8, 0⟩, ⟨10, 9, 0⟩], []⟩

/-- A four-node graph with two edges, used as a concrete perturbation
instance. -/
def Gfour : Graph :=
  ⟨[⟨1, 0, 0⟩, ⟨2, 1, 0⟩, ⟨3, 2, 0⟩, ⟨4, 3, 0⟩], [⟨1, 2, 0, 5⟩, ⟨2, 3, 0, 7⟩]⟩

/-- A two-node, edge-free graph: node 1 sits exactly at the query
coordinate and node 2 elsewhere. -/
def Gnear : Graph :=
  ⟨[⟨1, 0, 0⟩, ⟨2, 10, 10⟩], []⟩

/-- Claim C5: the perturbation never mutates the input graph — after
copying and removing nodes in place on the copy, the graph bound to the
base name is unchanged, the perturbed name holds the node-removed copy,
and further in-place mutation of the perturbed graph still leaves the
base graph unchanged (no shared mutable structure). -/
theorem c5_perturbation_frame (s : GStore) (S Sfurther : List Nat) :
    (perturbProg s S) GName.base = s GName.base
    ∧ (perturbProg s S) GName.per = removeNodesFrom (copyGraph (s GName.base)) S
    ∧ (removeStep (perturbProg s S) Sfurther) GName.base = s GName.base := by
  refine ⟨?_, ?_, ?_⟩ <;> rfl

/-- Claim C8: the solved set of a batch trip simulation consists of
exactly the non-null oracle results of route length at least 2, and the
solved count never exceeds the number of input OD pairs. -/
theorem c8_solved_filter (oracle : Nat → Nat → Option (List Nat))
    (pairs : List (Nat × Nat)) :
    (∀ r : List Nat,
        r ∈ filterSolved (simulateTrips oracle pairs) ↔
          some r ∈ simulateTrips oracle pairs ∧ 2 ≤ r.length)
    ∧ (filterSolved (simulateTrips oracle pairs)).length ≤ pairs.length := by
  constructor
  · intro r
    constructor
    · intro hr
      rcases List.mem_filterMap.mp hr with ⟨op, hop, he⟩
      cases op with
      | none => simp at he
      | some p =>
        simp only [Option.some_bind] at he
        split at he
        · cases he
          exact ⟨hop, by omega⟩
        · cases he
    · rintro ⟨h1, h2⟩
      refine List.mem_filterMap.mpr ⟨some r, h1, ?_⟩
      simp only [Option.some_bind]
      rw [if_pos (by omega)]
  · calc (filterSolved (simulateTrips oracle pairs)).length
        ≤ (simulateTrips oracle pairs).length := List.length_filterMap_le _ _
      _ = pairs.length := List.length_map _ _

/-- Claim C4: the seeded node sampling is deterministic — two
invocations with identical seed, fraction and graph select exactly the
same removed-node sample. -/
theorem c4_sampling_deterministic (G1 G2 : Graph) (f1 f2 : ℚ) (s1 s2 : Nat)
    (hG : G1 = G2) (hf : f1 = f2) (hs : s1 = s2) :
    removedSample G1 f1 s1 = removedSample G2 f2 s2 := by
  subst hG; subst hf; subst hs; rfl

/-- Witness for C4: two runs with seed 0 and fraction 1/2 on `Gfour`
remove the same sample. -/
theorem c4_sampling_deterministic_witness :
    removedSample Gfour (1/2) 0 = removedSample Gfour (1/2) 0 :=
  c4_sampling_deterministic Gfour Gfour (1/2) (1/2) 0 0 rfl rfl rfl

/-- Claim C7 (amended): the perturbation fails exactly when the
requested (truncated) sample size is negative or exceeds the node
count — not for every fraction outside `[0,1]`. -/
theorem c7_fail_iff (G : Graph) (f : ℚ) (S : List Nat) :
    perturbChecked G f S = none ↔
      (nSample G f < 0 ∨ (G.nodes.length : ℤ) < nSample G f) := by
  by_cases h : 0 ≤ nSample G f ∧ nSample G f ≤ (G.nodes.length : ℤ)
  · rw [perturbChecked, if_pos h]
    simp only [reduceCtorEq, false_iff]
    omega
  · rw [perturbChecked, if_neg h]
    simp only [true_iff]
    omega

/-- Counterexample for C7: the fraction `-1/20` lies outside `[0,1]`,
yet on a ten-node graph the truncated sample size is 0 and the
perturbation succeeds without any error. -/
theorem c7_counterexample :
    ¬ ((0 : ℚ) ≤ -1/20 ∧ (-1/20 : ℚ) ≤ 1)
    ∧ (perturbChecked Gten (-1/20) []).isSome = true := by
  have hn : nSample Gten (-1/20) = 0 := by
    have h1 : ((-1 : ℚ)/20) * ((Gten.nodes.length : ℚ)) = -1/2 := by
      norm_num [Gten]
    rw [nSample, h1, pyInt, if_neg (by norm_num)]
    have h2 : ⌊(-(-1/2) : ℚ)⌋ = 0 := by
      rw [Int.floor_eq_zero_iff]
      constructor <;> norm_num
    rw [h2]
    norm_num
  constructor
  · norm_num
  · rw [perturbChecked, if_pos (by rw [hn]; norm_num [Gten])]
    rfl

/-- Claim C10: origin/destination nodes are recomputed by nearest-node
lookup against the graph being simulated — at the same query
coordinate, the base graph snaps to node 1 while the perturbed graph
(from which node 1 was removed) snaps to the different surviving
node 2. -/
theorem c10_endpoints_recomputed :
    nearestNode Gnear 0 0 = some 1
    ∧ 1 ∈ nodeIds Gnear
    ∧ 1 ∉ nodeIds (G_per Gnear [1])
    ∧ nearestNode (G_per Gnear [1]) 0 0 = some 2
    ∧ (1 : Nat) ≠ 2 := by
  refine ⟨?_, ?_, ?_, ?_, ?_⟩
  · norm_num [nearestNode, nearestAux, sqDist, Gnear]
  · decide
  · decide
  · norm_num [nearestNode, nearestAux, sqDist, Gnear, G_per, copyGraph, removeNodesFrom]
  · decide

/-- Claim C9: with trips solved before perturbation and a positive mean
efficiency before, the fraction-unsolvable metric is
`1 - solved_after / solved_before` and the relative efficiency
degradation is `1 - mean_after / mean_before`; both are undefined
(`none`) when the before-population is empty. -/
theorem c9_comparative_metrics (pp p : List (List Nat)) (ea eb : List ℝ)
    (hp : p.length ≠ 0) (hea : ea.length ≠ 0) (heb : eb.length ≠ 0)
    (hmb : 0 < eb.sum / (eb.length : ℝ)) :
    fracUnsolvable pp p = some (1 - (pp.length : ℚ) / (p.length : ℚ))
    ∧ effDegradation ea eb
        = some (1 - (ea.sum / (ea.length : ℝ)) / (eb.sum / (eb.length : ℝ)))
    ∧ fracUnsolvable pp [] = none
    ∧ effDegradation ea [] = none := by
  refine ⟨?_, ?_, ?_, ?_⟩
  · rw [fracUnsolvable, if_neg hp]
  · rw [effDegradation]
    rw [seriesMean, if_neg hea, seriesMean, if_neg heb]
  · simp [fracUnsolvable]
  · rw [effDegradation]
    rw [seriesMean, if_neg hea]
    rfl

/-- Witness for C9: 100 trips solved before and 80 after give a
fraction-unsolvable of 1/5 = 0.20, and means 3/4 before and 3/5 after
give an efficiency degradation of 1/5 = 0.20. -/
theorem c9_comparative_metrics_witness :
    fracUnsolvable (List.replicate 80 [1, 2]) (List.replicate 100 [1, 2]) = some (1/5)
    ∧ effDegradation [(3/5 : ℝ)] [(3/4 : ℝ)] = some (1/5) := by
  have h := c9_comparative_metrics (List.replicate 80 [1, 2])
    (List.replicate 100 [1, 2]) [(3/5 : ℝ)] [(3/4 : ℝ)]
    (by simp) (by simp) (by simp) (by norm_num)
  refine ⟨?_, ?_⟩
  · rw [h.1]
    norm_num
  · rw [h.2.1]
    norm_num

/-- Removing a duplicate-free sample of node ids drawn from a
duplicate-free node set shrinks the node list by exactly the sample
size. -/
lemma length_filter_not_mem (nds : List GNode) :
    ∀ S : List Nat, (nds.map (fun nd => nd.id)).Nodup → S.Nodup →
      (∀ s ∈ S, s ∈ nds.map (fun nd => nd.id)) →
      (nds.filter (fun nd => nd.id ∉ S)).length + S.length = nds.length := by
  induction nds with
  | nil =>
    intro S _ _ hsub
    have hS : S = [] := List.eq_nil_iff_forall_not_mem.mpr
      (fun s hs => by simpa using hsub s hs)
    subst hS
    simp
  | cons nd rest ih =>
    intro S hnd hS hsub
    rw [List.map_cons, List.nodup_cons] at hnd
    obtain ⟨hnotin, hrestnd⟩ := hnd
    have hrest_ids : ∀ nd' ∈ rest, nd'.id ≠ nd.id := by
      intro nd' h1 h2
      exact hnotin (h2 ▸ List.mem_map_of_mem _ h1)
    by_cases hmem : nd.id ∈ S
    · rw [List.filter_cons_of_neg (by simpa using hmem)]
      have hfeq : rest.filter (fun n => n.id ∉ S)
          = rest.filter (fun n => n.id ∉ S.erase nd.id) := by
        apply List.filter_congr
        intro n hn
        have hne : n.id ≠ nd.id := hrest_ids n hn
        simp only [decide_eq_decide]
        rw [List.mem_erase_of_ne hne]
      rw [hfeq]
      have hsub' : ∀ s ∈ S.erase nd.id, s ∈ rest.map (fun nd => nd.id) := by
        intro s hs
        have hsS : s ∈ S := List.mem_of_mem_erase hs
        have hsne : s ≠ nd.id := ((List.Nodup.mem_erase_iff hS).mp hs).1
        have hm := hsub s hsS
        rw [List.map_cons, List.mem_cons] at hm
        rcases hm with h | h
        · exact absurd h hsne
        · exact h
      have hrec := ih (S.erase nd.id) hrestnd (hS.erase _) hsub'
      have hpos : S.length ≠ 0 := by
        intro h0
        rw [List.length_eq_zero] at h0
        subst h0
        simp at hmem
      have hlen : (S.erase nd.id).length = S.length - 1 :=
        List.length_erase_of_mem hmem
      simp only [List.length_cons]
      omega
    · rw [List.filter_cons_of_pos (by simpa using hmem)]
      have hsub' : ∀ s ∈ S, s ∈ rest.map (fun nd => nd.id) := by
        intro s hs
        have hm := hsub s hs
        rw [List.map_cons, List.mem_cons] at hm
        rcases hm with h | h
        · exact absurd (h ▸ hs) hmem
        · exact h
      have hrec := ih S hrestnd hS hsub'
      simp only [List.length_cons]
      omega

/-- Claim C3: with a fraction in `[0,1]`, a duplicate-free node set and
a drawn sample of the requested size `int(frac * node_count)` taken
from the node set, the perturbed copy has exactly
`floor(frac * node_count)` fewer nodes, every sampled node is gone, and
no surviving edge touches a sampled node. -/
theorem c3_perturbation_removes (G : Graph) (f : ℚ) (S : List Nat)
    (hf0 : 0 ≤ f) (hf1 : f ≤ 1)
    (hG : (nodeIds G).Nodup) (hSnd : S.Nodup)
    (hsub : ∀ s ∈ S, s ∈ nodeIds G)
    (hcard : (S.length : ℤ) = nSample G f) :
    (G_per G S).nodes.length + (⌊f * (G.nodes.length : ℚ)⌋).toNat = G.nodes.length
    ∧ (∀ s ∈ S, s ∉ nodeIds (G_per G S))
    ∧ ∀ e ∈ (G_per G S).edges, e.u ∉ S ∧ e.v ∉ S := by
  have hfloor : nSample G f = ⌊f * (G.nodes.length : ℚ)⌋ := by
    rw [nSample, pyInt, if_pos (mul_nonneg hf0 (by positivity))]
  have hSlen : S.length = (⌊f * (G.nodes.length : ℚ)⌋).toNat := by
    rw [hfloor] at hcard
    omega
  refine ⟨?_, ?_, ?_⟩
  · rw [← hSlen]
    exact length_filter_not_mem G.nodes S hG hSnd hsub
  · intro s hs hmem
    rw [nodeIds] at hmem
    rcases List.mem_map.mp hmem with ⟨nd, hnd, hid⟩
    have hf := List.mem_filter.mp hnd
    have h2 : nd.id ∉ S := by simpa using hf.2
    exact h2 (hid ▸ hs)
  · intro e he
    have hf := List.mem_filter.mp he
    simpa using hf.2

/-- Witness for C3: removing the sample `[2, 4]` (of requested size
`int(4 * 1/2) = 2`) from the four-node graph leaves two nodes, drops
nodes 2 and 4, and leaves no edge touching them. -/
theorem c3_perturbation_removes_witness :
    ((G_per Gfour [2, 4]).nodes.length
        + (⌊(1/2 : ℚ) * ((Gfour.nodes.length : Nat) : ℚ)⌋).toNat = Gfour.nodes.length)
    ∧ (∀ s ∈ ([2, 4] : List Nat), s ∉ nodeIds (G_per Gfour [2, 4]))
    ∧ ∀ e ∈ (G_per Gfour [2, 4]).edges, e.u ∉ ([2, 4] : List Nat) ∧ e.v ∉ ([2, 4] : List Nat) := by
  refine c3_perturbation_removes Gfour (1/2) [2, 4] (by norm_num) (by norm_num)
    (by decide) (by decide) (by decide) ?_
  norm_num [nSample, pyInt, Gfour]


/-- Unfolding the traversal of route edge lengths one consecutive pair
at a time. -/
lemma routeLengths_cons (G : Graph) (a b : Nat) (rest : List Nat) :
    routeLengths G (a :: b :: rest)
      = match edgeLenMin G a b, routeLengths G (b :: rest) with
        | some l, some ls => some (l :: ls)
        | _, _ => none := by
  rw [routeLengths, routeLengths]
  rw [show consecPairs (a :: b :: rest) = (a, b) :: consecPairs (b :: rest) from rfl]
  rw [List.mapM_cons]
  cases h1 : edgeLenMin G a b with
  | none => simp
  | some l =>
    cases h2 : (consecPairs (b :: rest)).mapM (fun p => edgeLenMin G p.1 p.2) with
    | none => simp
    | some ls => simp

/-- The zip/traverse reading of the trip distance (as `route_to_gdf`
computes it) agrees with the direct recursion over consecutive pairs. -/
lemma tripDistance_eq_sumRouteLengths (G : Graph) :
    ∀ route : List Nat, tripDistance G route = sumRouteLengths G route := by
  intro route
  induction route with
  | nil => rfl
  | cons a rest ih =>
    cases rest with
    | nil => rfl
    | cons b rest2 =>
      rw [tripDistance, routeLengths_cons]
      cases h1 : edgeLenMin G a b with
      | none => simp [sumRouteLengths, h1]
      | some l =>
        cases h2 : routeLengths G (b :: rest2) with
        | none =>
          have ihn : sumRouteLengths G (b :: rest2) = none := by
            rw [← ih, tripDistance, h2]
            rfl
          simp [sumRouteLengths, h1, ihn]
        | some ls =>
          have ihs : sumRouteLengths G (b :: rest2) = some ls.sum := by
            rw [← ih, tripDistance, h2]
            rfl
          simp [sumRouteLengths, h1, ihs]

/-- Whenever a route of length ≥ 2 has an edge for every consecutive
pair and both endpoint nodes are present, `calc_efficiency` returns
exactly the endpoint great-circle distance divided by the summed edge
lengths. -/
lemma calc_efficiency_eq (G : Graph) (route : List Nat) (a b : GNode) (td : ℝ)
    (hlen : 2 ≤ route.length)
    (ha : route.head?.bind (findNode G) = some a)
    (hb : route.getLast?.bind (findNode G) = some b)
    (htd : sumRouteLengths G route = some td) :
    calc_efficiency G route
      = some (greatCircle (a.y : ℝ) (a.x : ℝ) (b.y : ℝ) (b.x : ℝ) / td) := by
  have ht : tripDistance G route = some td :=
    (tripDistance_eq_sumRouteLengths G route).trans htd
  rw [calc_efficiency, if_neg (by omega), ht, ha, hb]

/-- Earth's mean radius is positive. -/
lemma earthRadius_pos : (0 : ℝ) < earthRadius := by
  rw [earthRadius]
  norm_num

/-- The haversine great-circle distance is never negative. -/
lemma greatCircle_nonneg (lat1 lon1 lat2 lon2 : ℝ) :
    0 ≤ greatCircle lat1 lon1 lat2 lon2 :=
  mul_nonneg
    (mul_nonneg (by norm_num) (Real.arcsin_nonneg.mpr (Real.sqrt_nonneg _)))
    earthRadius_pos.le

/-- The haversine great-circle distance from a point to itself is 0. -/
lemma greatCircle_self (lat lon : ℝ) : greatCircle lat lon lat lon = 0 := by
  have h0 : min (0 : ℝ) 1 = 0 := min_eq_left zero_le_one
  simp [greatCircle, sub_self, zero_pow, h0, Real.arcsin_zero]

/-- The haversine great-circle distance between opposite equatorial
points at longitudes 0° and 180° is exactly half Earth's
circumference. -/
lemma greatCircle_equator : greatCircle 0 0 0 180 = Real.pi * earthRadius := by
  simp only [greatCircle, deg2rad, zero_mul, sub_zero, sub_self, zero_div,
    Real.sin_zero, Real.cos_zero, one_mul, mul_one]
  have h180 : (180 : ℝ) * (Real.pi / 180) = Real.pi := by ring
  rw [h180, Real.sin_pi_div_two]
  norm_num
  left
  ring

/-- Claim C1: for every route of length ≥ 2 whose consecutive pairs are
edges carrying a length and whose endpoints are graph nodes,
`calc_efficiency` equals the haversine great-circle distance between
the first and last node coordinates divided by the sum of the traversed
edge lengths. -/
theorem c1_efficiency_is_gc_over_trip (G : Graph) (route : List Nat)
    (a b : GNode) (td : ℝ)
    (hlen : 2 ≤ route.length)
    (ha : route.head?.bind (findNode G) = some a)
    (hb : route.getLast?.bind (findNode G) = some b)
    (htd : sumRouteLengths G route = some td) :
    calc_efficiency G route
      = some (greatCircle (a.y : ℝ) (a.x : ℝ) (b.y : ℝ) (b.x : ℝ) / td) :=
  calc_efficiency_eq G route a b td hlen ha hb htd

/-- Witness for C1: on the two-node graph with a single 100 m edge, the
route `[1, 2]` has efficiency `greatCircle(0,0,0,1) / 100`. -/
theorem c1_efficiency_is_gc_over_trip_witness :
    calc_efficiency Gwit [1, 2]
      = some (greatCircle ((0 : ℚ) : ℝ) ((0 : ℚ) : ℝ) ((0 : ℚ) : ℝ) ((1 : ℚ) : ℝ) / 100) := by
  have htd : sumRouteLengths Gwit [1, 2] = some 100 := by
    rw [show sumRouteLengths Gwit [1, 2] = some ((100 : ℝ) + 0) from rfl]
    norm_num
  exact c1_efficiency_is_gc_over_trip Gwit [1, 2] ⟨1, 0, 0⟩ ⟨2, 1, 0⟩ 100
    (by norm_num) rfl rfl htd

/-- Claim C2 (amended): a valid route with positive trip distance has
efficiency ≥ 0 (not strictly positive: a closed route has great-circle
distance 0), and the efficiency equals 1 exactly when the great-circle
distance between the endpoints equals the trip distance (regardless of
the number of segments). -/
theorem c2_efficiency_bounds (G : Graph) (route : List Nat)
    (a b : GNode) (td : ℝ)
    (hlen : 2 ≤ route.length)
    (ha : route.head?.bind (findNode G) = some a)
    (hb : route.getLast?.bind (findNode G) = some b)
    (htd : sumRouteLengths G route = some td)
    (htdpos : 0 < td) :
    calc_efficiency G route
      = some (greatCircle (a.y : ℝ) (a.x : ℝ) (b.y : ℝ) (b.x : ℝ) / td)
    ∧ 0 ≤ greatCircle (a.y : ℝ) (a.x : ℝ) (b.y : ℝ) (b.x : ℝ) / td
    ∧ (greatCircle (a.y : ℝ) (a.x : ℝ) (b.y : ℝ) (b.x : ℝ) / td = 1
        ↔ greatCircle (a.y : ℝ) (a.x : ℝ) (b.y : ℝ) (b.x : ℝ) = td) := by
  refine ⟨calc_efficiency_eq G route a b td hlen ha hb htd, ?_, ?_⟩
  · exact div_nonneg (greatCircle_nonneg _ _ _ _) htdpos.le
  · exact div_eq_one_iff_eq htdpos.ne'

/-- Witness for C2 (amended): the single-edge route `[1, 2]` of `Gwit`
has trip distance 100 > 0, a nonnegative efficiency, and efficiency 1
exactly when its great-circle distance is 100. -/
theorem c2_efficiency_bounds_witness :
    calc_efficiency Gwit [1, 2]
      = some (greatCircle ((0 : ℚ) : ℝ) ((0 : ℚ) : ℝ) ((0 : ℚ) : ℝ) ((1 : ℚ) : ℝ) / 100)
    ∧ 0 ≤ greatCircle ((0 : ℚ) : ℝ) ((0 : ℚ) : ℝ) ((0 : ℚ) : ℝ) ((1 : ℚ) : ℝ) / 100
    ∧ (greatCircle ((0 : ℚ) : ℝ) ((0 : ℚ) : ℝ) ((0 : ℚ) : ℝ) ((1 : ℚ) : ℝ) / 100 = 1
        ↔ greatCircle ((0 : ℚ) : ℝ) ((0 : ℚ) : ℝ) ((0 : ℚ) : ℝ) ((1 : ℚ) : ℝ) = 100) := by
  have htd : sumRouteLengths Gwit [1, 2] = some 100 := by
    rw [show sumRouteLengths Gwit [1, 2] = some ((100 : ℝ) + 0) from rfl]
    norm_num
  exact c2_efficiency_bounds Gwit [1, 2] ⟨1, 0, 0⟩ ⟨2, 1, 0⟩ 100
    (by norm_num) rfl rfl htd (by norm_num)

/-- Counterexample for C2 as stated: the cycle `[1, 2, 1]` of `Gcyc` is
a valid route with trip distance 200 > 0 yet its efficiency is exactly
0 (not strictly positive), and the two-segment route `[1, 2, 3]` of
`Gstraight` (a three-node route, not a single segment) has efficiency
exactly 1. -/
theorem c2_counterexample :
    (calc_efficiency Gcyc [1, 2, 1] = some 0
      ∧ sumRouteLengths Gcyc [1, 2, 1] = some 200 ∧ (0 : ℝ) < 200)
    ∧ (calc_efficiency Gstraight [1, 2, 3] = some 1
      ∧ ([1, 2, 3] : List Nat).length = 3) := by
  have htd : sumRouteLengths Gcyc [1, 2, 1] = some 200 := by
    rw [show sumRouteLengths Gcyc [1, 2, 1] = some ((100 : ℝ) + (100 + 0)) from rfl]
    norm_num
  have heff := calc_efficiency_eq Gcyc [1, 2, 1] ⟨1, 0, 0⟩ ⟨1, 0, 0⟩ 200
    (by norm_num) rfl rfl htd
  have htd3 : sumRouteLengths Gstraight [1, 2, 3]
      = some (earthRadius * (Real.pi / 2) + (earthRadius * (Real.pi / 2) + 0)) := rfl
  have heff3 := calc_efficiency_eq Gstraight [1, 2, 3] ⟨1, 0, 0⟩ ⟨3, 180, 0⟩
    (earthRadius * (Real.pi / 2) + (earthRadius * (Real.pi / 2) + 0))
    (by norm_num) rfl rfl htd3
  refine ⟨⟨?_, htd, by norm_num⟩, ⟨?_, rfl⟩⟩
  · rw [heff, greatCircle_self]
    norm_num
  · have heff3' : calc_efficiency Gstraight [1, 2, 3]
        = some (greatCircle 0 0 0 180
            / (earthRadius * (Real.pi / 2) + (earthRadius * (Real.pi / 2) + 0))) := by
      rw [heff3]
      norm_num
    rw [heff3', greatCircle_equator]
    have hden : earthRadius * (Real.pi / 2) + (earthRadius * (Real.pi / 2) + 0)
        = Real.pi * earthRadius := by ring
    rw [hden, div_self (mul_ne_zero Real.pi_ne_zero earthRadius_pos.ne')]

/-- Claim C6 (amended): the efficiency computation fails (raises) for
every route of fewer than two nodes; but a zero trip distance is NOT
reported as an error — whenever the route resolves, the division is
performed and a result is returned even when the trip distance is 0. -/
theorem c6_error_behaviour (G : Graph) (route : List Nat) :
    (route.length < 2 → calc_efficiency G route = none)
    ∧ ∀ td a b, 2 ≤ route.length →
        tripDistance G route = some td →
        route.head?.bind (findNode G) = some a →
        route.getLast?.bind (findNode G) = some b →
        (calc_efficiency G route).isSome = true := by
  constructor
  · intro h
    rw [calc_efficiency, if_pos h]
  · intro td a b h2 ht ha hb
    rw [calc_efficiency, if_neg (by omega), ht, ha, hb]
    rfl

/-- Witness for C6 (amended): the one-node route `[1]` fails, while the
route `[1, 2]` of `Gzero` — whose trip distance is 0 — still returns a
value rather than failing. -/
theorem c6_error_behaviour_witness :
    calc_efficiency Gzero [1] = none
    ∧ (calc_efficiency Gzero [1, 2]).isSome = true := by
  have ht : tripDistance Gzero [1, 2] = some 0 := by
    rw [show tripDistance Gzero [1, 2] = some ((0 : ℝ) + 0) from rfl]
    norm_num
  exact ⟨(c6_error_behaviour Gzero [1]).1 (by norm_num),
    (c6_error_behaviour Gzero [1, 2]).2 0 ⟨1, 0, 0⟩ ⟨2, 1, 0⟩ (by norm_num) ht rfl rfl⟩

/-- Counterexample for C6 as stated: the route `[1, 2]` of `Gzero` has
trip distance 0, yet `calc_efficiency` does not fail on it — it returns
a value (the float division yields inf/NaN in the source, silently). -/
theorem c6_counterexample :
    tripDistance Gzero [1, 2] = some 0
    ∧ (calc_efficiency Gzero [1, 2]).isSome = true := by
  constructor
  · rw [show tripDistance Gzero [1, 2] = some ((0 : ℝ) + 0) from rfl]
    norm_num
  · rw [calc_efficiency, if_neg (by norm_num)]
    rw [show tripDistance Gzero [1, 2] = some ((0 : ℝ) + 0) from rfl]
    rw [show ([1, 2] : List Nat).head?.bind (findNode Gzero) = some ⟨1, 0, 0⟩ from rfl]
    rw [show ([1, 2] : List Nat).getLast?.bind (findNode Gzero) = some ⟨2, 1, 0⟩ from rfl]
    rfl
